import Mathlib

/-!
Verification development for the ig-planner backend job engine.

Shallow embedding of the job lifecycle code:
  * `jobs.py`     — job record store (`create_job`, `update_job_status`) and the
                    Redis queue helpers (`rpush_job`, `lpush_job`, `brpop_job`);
  * `ai_worker.py`— retry/fallback policy (`_with_retries`, `_run_t2i`, `_run_i2i`),
                    media re-hosting (`_download_and_upload`) and `process_ai_job`;
  * `main.py`     — the video worker loop (`_worker_loop`);
  * `routers/ai.py` — the `/ai/generate/batch` request handler.

Machine reals (timestamps) and wall-clock throttling are not modeled; no theorem
below depends on them.
-/

namespace IgPlanner

/-- Python `str.lower()`, character-wise (all strings it is applied to here —
provider names and job kinds — are ASCII). -/
def strToLower (s : String) : String :=
  ⟨s.data.map Char.toLower⟩

/-- Python `str.strip()`: drop leading and trailing whitespace. -/
def pyStrip (s : String) : String :=
  ⟨((s.data.dropWhile Char.isWhitespace).reverse.dropWhile Char.isWhitespace).reverse⟩

/-! ## Job record store (`jobs.py`) -/

/-- The four status constants of `jobs.py` (lines 10-13). -/
inductive Status where
  | PENDING
  | RUNNING
  | DONE
  | ERROR
deriving DecidableEq, Repr

/-- The fields of the stored job document that the claims are about.
`create_job` also stores `job_id`, `kind`, `payload`, `created_at`, `updated_at`
and applies a TTL; none of those fields is constrained by the claims and the
wall-clock timestamps are not representable here, so they are omitted.  The
success payload type is a parameter `α` (`result` is a JSON object in the code). -/
structure JobRec (α : Type) where
  status : Status
  result : Option α
  error : Option String
deriving DecidableEq, Repr

/-- `jobs.create_job` (jobs.py lines 49-68): the fresh record has
`status=PENDING`, `result=None`, `error=None`. -/
def createJob {α : Type} : JobRec α :=
  ⟨Status.PENDING, none, none⟩

/-- One `update_job_status(job_id, status, result=..., error=...)` call:
the keyword arguments that were passed (`None` = argument omitted or null). -/
structure UpdateOp (α : Type) where
  status : Status
  result : Option α
  error : Option String
deriving DecidableEq, Repr

/-- `jobs.update_job_status` (jobs.py lines 79-102) on an existing record:
`data["status"] = status` unconditionally; `data["result"] = result` only
`if result is not None`; `data["error"] = error` only `if error is not None`.
There is no guard on terminal statuses. -/
def updateJobStatus {α : Type} (j : JobRec α) (op : UpdateOp α) : JobRec α :=
  ⟨op.status,
   match op.result with
   | some r => some r
   | none => j.result,
   match op.error with
   | some e => some e
   | none => j.error⟩

/-- A sequence of `update_job_status` calls applied to a record in order. -/
def applyOps {α : Type} (j : JobRec α) (ops : List (UpdateOp α)) : JobRec α :=
  ops.foldl updateJobStatus j

/-- The status after a sequence of updates: simply the last update's status
(or the initial one when the list is empty). -/
def lastStatusOf {α : Type} (init : Status) (ops : List (UpdateOp α)) : Status :=
  ops.foldl (fun _ op => op.status) init

/-- The last non-null `result` argument in the sequence, if any. -/
def lastResultOf {α : Type} (init : Option α) (ops : List (UpdateOp α)) : Option α :=
  ops.foldl
    (fun acc op =>
      match op.result with
      | some r => some r
      | none => acc)
    init

/-- The last non-null `error` argument in the sequence, if any. -/
def lastErrorOf {α : Type} (init : Option String) (ops : List (UpdateOp α)) : Option String :=
  ops.foldl
    (fun acc op =>
      match op.error with
      | some e => some e
      | none => acc)
    init

/-! ## Work queue (`jobs.py`, queue helpers)

The Redis list `settings.REDIS_QUEUE` is modeled as a `List String` whose head
is the LEFT end of the Redis list.  `RPUSH` appends at the right (tail) end,
`LPUSH` prepends at the left end, and `BRPOP` pops from the RIGHT end — the
same end `rpush_job` pushes to. -/

/-- `jobs.rpush_job` (jobs.py lines 106-108): `RPUSH` appends at the tail. -/
def rpushJob (q : List String) (jobId : String) : List String :=
  q ++ [jobId]

/-- `jobs.lpush_job` (jobs.py lines 111-113): `LPUSH` prepends at the head. -/
def lpushJob (q : List String) (jobId : String) : List String :=
  jobId :: q

/-- `jobs.brpop_job` (jobs.py lines 116-122): `BRPOP` removes and returns the
element at the tail (right end); `none` models the timeout on an empty queue. -/
def brpopJob (q : List String) : Option (String × List String) :=
  match q.reverse with
  | [] => none
  | x :: rest => some (x, rest.reverse)

/-- Enqueue a batch of ids in order via `rpush_job`. -/
def enqueueAll (q : List String) (ids : List String) : List String :=
  ids.foldl rpushJob q

/-- Repeatedly `brpop_job` until the queue reports empty, collecting the ids in
the order they are returned.  The fuel argument only bounds the recursion; one
element leaves the queue per pop, so `q.length` fuel drains the queue. -/
def dequeueAllGo (fuel : Nat) (q : List String) : List String :=
  match fuel with
  | 0 => []
  | fuel + 1 =>
    match brpopJob q with
    | none => []
    | some (x, q') => x :: dequeueAllGo fuel q'

/-- All ids obtained by successive dequeues until the queue is empty. -/
def dequeueAll (q : List String) : List String :=
  dequeueAllGo q.length q

/-! ## Exceptions and retry classification (`ai_worker.py`, `ai_providers.py`) -/

/-- The exceptions that can flow through the AI worker:
`AIProviderError` (ai_providers.py lines 9-13, carrying its `retryable` flag),
the httpx timeout/network errors, and plain `TypeError` / `RuntimeError`.
`message` below is what Python's `str(exc)` returns. -/
inductive Exc where
  | provider (retryable : Bool) (message : String)
  | network (message : String)
  | typeError (message : String)
  | runtimeError (message : String)
deriving DecidableEq, Repr

instance exceptDecEq {ε α : Type} [DecidableEq ε] [DecidableEq α] :
    DecidableEq (Except ε α) := fun x y =>
  match x, y with
  | .ok a, .ok b =>
    if h : a = b then isTrue (by rw [h]) else isFalse fun hc => h (by injection hc)
  | .ok _, .error _ => isFalse fun hc => Except.noConfusion hc
  | .error _, .ok _ => isFalse fun hc => Except.noConfusion hc
  | .error e, .error f =>
    if h : e = f then isTrue (by rw [h]) else isFalse fun hc => h (by injection hc)

/-- Python `str(exc)`. -/
def excMessage : Exc → String
  | .provider _ m => m
  | .network m => m
  | .typeError m => m
  | .runtimeError m => m

/-- `ai_worker._is_retryable_error` (ai_worker.py lines 43-48): an
`AIProviderError` is retryable per its flag, httpx timeout/network errors are
always retryable, everything else is not. -/
def isRetryableError : Exc → Bool
  | .provider r _ => r
  | .network _ => true
  | .typeError _ => false
  | .runtimeError _ => false

/-! ## Retry policy: `ai_worker._with_retries` (lines 51-61)

A provider call is modeled as a function from the attempt index to its outcome
(the code invokes `func()` once per iteration of `for attempt in
range(retries + 1)`).  The run records the raised-or-returned outcome, how many
times the callee was invoked, and the argument of each `asyncio.sleep(1 + attempt)`
performed between attempts, in order. -/

structure RetryRun (α : Type) where
  result : Except Exc α
  calls : Nat
  delays : List Nat

/-- The loop body of `_with_retries`, with `attempt` the current index and
`remaining = retries - attempt` the number of further attempts allowed.  The
loop breaks (re-raising the last exception) when `attempt >= retries` or the
exception is not retryable; otherwise it sleeps `1 + attempt` and retries. -/
def withRetriesGo {α : Type} (f : Nat → Except Exc α) (attempt remaining : Nat) : RetryRun α :=
  match f attempt with
  | .ok v => ⟨.ok v, 1, []⟩
  | .error e =>
    match remaining with
    | 0 => ⟨.error e, 1, []⟩
    | remaining + 1 =>
      if isRetryableError e then
        let rest := withRetriesGo f (attempt + 1) remaining
        ⟨rest.result, rest.calls + 1, (1 + attempt) :: rest.delays⟩
      else ⟨.error e, 1, []⟩

/-- `_with_retries(func, retries)`: start at attempt 0 with `retries` further
attempts allowed (the call sites use `retries=2`, so up to 3 calls). -/
def withRetries {α : Type} (f : Nat → Except Exc α) (retries : Nat) : RetryRun α :=
  withRetriesGo f 0 retries

/-! ## Fallback policy: `ai_worker._run_t2i` (lines 64-83) and `_run_i2i` (lines 86-105) -/

/-- Outcome of one `_run_t2i` / `_run_i2i` invocation: the returned
`(provider_name, value)` or the raised exception, plus how many times each of
the primary and fallback provider functions was called. -/
structure FallbackRun (α : Type) where
  result : Except Exc (String × α)
  primaryCalls : Nat
  fallbackCalls : Nat

/-- The shared body of `_run_t2i` / `_run_i2i` after provider selection:
`_with_retries(primary_fn, retries=2)`; on success return with the primary's
name.  On an exception `exc`: if `exc` is retryable, make one retry-wrapped
attempt on the fallback, returning its value with the fallback's name on
success and re-raising the ORIGINAL `exc` (`raise exc`, lines 81-82 / 103-104)
on any fallback failure; if `exc` is not retryable, re-raise it immediately
without touching the fallback. -/
def runWithFallback {α : Type} (primaryName : String) (primary : Nat → Except Exc α)
    (fallbackName : String) (fallback : Nat → Except Exc α) : FallbackRun α :=
  let run1 := withRetries primary 2
  match run1.result with
  | .ok v => ⟨.ok (primaryName, v), run1.calls, 0⟩
  | .error exc =>
    if isRetryableError exc then
      let run2 := withRetries fallback 2
      match run2.result with
      | .ok v => ⟨.ok (fallbackName, v), run1.calls, run2.calls⟩
      | .error _ => ⟨.error exc, run1.calls, run2.calls⟩
    else ⟨.error exc, run1.calls, 0⟩

/-- Provider selection (lines 65-71 / 87-93):
`primary = (settings.AI_PROVIDER or "fal").lower()`; replicate is primary
exactly when that equals "replicate", otherwise fal is primary. -/
def primaryIsReplicate (cfg : String) : Bool :=
  strToLower (if cfg.isEmpty then "fal" else cfg) = "replicate"

/-- The provider function `_run_t2i`/`_run_i2i` uses as primary under
configuration `cfg` (the value of `settings.AI_PROVIDER`). -/
def primaryOf {α : Type} (cfg : String) (fal replicate : α) : α :=
  if primaryIsReplicate cfg then replicate else fal

/-- The provider function used as fallback under configuration `cfg`. -/
def fallbackOf {α : Type} (cfg : String) (fal replicate : α) : α :=
  if primaryIsReplicate cfg then fal else replicate

/-- The primary provider's name under configuration `cfg`. -/
def primaryNameOf (cfg : String) : String :=
  if primaryIsReplicate cfg then "replicate" else "fal"

/-- The fallback provider's name under configuration `cfg`. -/
def fallbackNameOf (cfg : String) : String :=
  if primaryIsReplicate cfg then "fal" else "replicate"

/-- `ai_worker._run_t2i`, with the two backends (`fal_t2i`, `replicate_t2i`)
abstracted as attempt-indexed outcome functions. -/
def runT2I {α : Type} (cfg : String) (fal replicate : Nat → Except Exc α) : FallbackRun α :=
  runWithFallback (primaryNameOf cfg) (primaryOf cfg fal replicate)
    (fallbackNameOf cfg) (fallbackOf cfg fal replicate)

/-- `ai_worker._run_i2i`: textually the same policy as `_run_t2i`, over the
image-to-image backends (`fal_i2i`, `replicate_i2i`). -/
def runI2I {α : Type} (cfg : String) (fal replicate : Nat → Except Exc α) : FallbackRun α :=
  runWithFallback (primaryNameOf cfg) (primaryOf cfg fal replicate)
    (fallbackNameOf cfg) (fallbackOf cfg fal replicate)

/-! ## Re-hosting: `ai_worker._download_and_upload` (lines 20-40)

For each generated url the loop downloads to a scratch file (`download_to`,
file_utils.py — raises on HTTP/size failure), uploads it to Cloudinary
(`cloudinary_unsigned_upload_file` — raises on HTTP failure) and appends the
response's `secure_url` if present.  The scratch file is removed in a `finally`
block; there is NO `except` around the per-item body, so an exception raised
for one url propagates out of the whole function.  The environment's behavior
per url is one of three observable outcomes. -/

inductive RehostOutcome where
  | uploaded (secureUrl : String)
  | noSecureUrl
  | raises (e : Exc)
deriving DecidableEq, Repr

/-- Result of `_download_and_upload`: the returned list of Cloudinary urls or
the propagated exception, plus how many of the input urls the loop started
processing before returning or raising. -/
structure RehostRun where
  result : Except Exc (List String)
  attempted : Nat

/-- `_download_and_upload(urls)` under the per-url behavior `rehost`. -/
def downloadAndUpload (rehost : String → RehostOutcome) : List String → RehostRun
  | [] => ⟨.ok [], 0⟩
  | u :: rest =>
    match rehost u with
    | .raises e => ⟨.error e, 1⟩
    | .uploaded s =>
      let r := downloadAndUpload rehost rest
      ⟨r.result.map (fun l => s :: l), r.attempted + 1⟩
    | .noSecureUrl =>
      let r := downloadAndUpload rehost rest
      ⟨r.result, r.attempted + 1⟩

/-- The urls `_download_and_upload` returns when no url raises: exactly those
whose upload response carries a `secure_url`, in order. -/
def keptUrls (rehost : String → RehostOutcome) (urls : List String) : List String :=
  urls.filterMap fun u =>
    match rehost u with
    | .uploaded s => some s
    | _ => none

/-- True when re-hosting this url raises no exception (its download and upload
both return). -/
def notRaises : RehostOutcome → Bool
  | .raises _ => false
  | .uploaded _ => true
  | .noSecureUrl => true

/-! ## `ai_worker.process_ai_job` (lines 108-188)

Faithful model, including the keyword-binding behavior of its status writes.
`jobs.update_job_status` accepts only the keyword arguments `result` and
`error` (jobs.py lines 79-85), while EVERY call in `process_ai_job` also
passes `stage=...`; binding such a call raises `TypeError` before the callee's
body runs.  Each call site is therefore modeled with the list of extra keyword
names it passes beyond `result`/`error`. -/

/-- The keyword parameter names `jobs.update_job_status` accepts besides the
positional `job_id` and `status` (jobs.py lines 79-85). -/
def updateJobStatusKwNames : List String := ["result", "error"]

/-- Python's message for a keyword that fails to bind. -/
def unexpectedKwMsg : String :=
  "update_job_status() got an unexpected keyword argument stage"

/-- An `await update_job_status(...)` call carrying the extra keyword names
`extraKw`: if every extra keyword is an accepted parameter the body runs
(`updateJobStatus`); otherwise Python raises `TypeError` at the call. -/
def callUpdateJobStatus {α : Type} (j : JobRec α) (status : Status) (result : Option α)
    (error : Option String) (extraKw : List String) : Except Exc (JobRec α) :=
  if extraKw.all (fun k => updateJobStatusKwNames.contains k) then
    .ok (updateJobStatus j ⟨status, result, error⟩)
  else .error (.typeError unexpectedKwMsg)

/-- Metadata map returned by a provider backend (`meta` in the code). -/
abbrev Meta : Type := List (String × String)

/-- What a provider backend returns on success: `(media_urls, metadata)`. -/
abbrev ProviderOut : Type := List String × Meta

/-- One item of an `avatar_batch` result (built at ai_worker.py lines 144-164):
on a per-source exception `generated_images` stays `[]` (the assignment at line
158 is skipped) and `error` records `str(exc)`. -/
structure BatchItem where
  sourceImageUrl : String
  generatedImages : List String
  metaProvider : Option String
  meta : Meta
  error : Option String
deriving DecidableEq, Repr

/-- `result["summary"]` of a batch job (lines 175-179). -/
structure BatchSummary where
  countSources : Nat
  variantsPerImage : Nat
  totalGenerated : Nat
deriving DecidableEq, Repr

/-- The `result` payloads `process_ai_job` writes on `DONE`: the t2i/i2i shape
`{"provider": ..., "images": ..., "meta": ...}` (lines 121/133) or the batch
shape `{"provider": "mixed", "items": ..., "summary": ...}` (lines 172-180). -/
inductive AiResult where
  | images (provider : String) (imageUrls : List String) (meta : Meta)
  | batch (provider : String) (items : List BatchItem) (summary : BatchSummary)
deriving DecidableEq, Repr

/-- The job payload fields `process_ai_job` reads.  `variantsPerImage` is `Int`
because the record is JSON; `none` models an absent/null key. -/
structure AiPayload where
  imageUrl : Option String
  imageUrls : List String
  variantsPerImage : Option Int

/-- The job document fields `process_ai_job` reads (`job.get("kind")`,
`job.get("payload")`). -/
structure JobIn where
  kind : String
  payload : AiPayload

/-- External behavior visible to `process_ai_job`: the configured provider name
and the outcome of each backend call and of each re-host step.  The i2i
backends receive the source image url the call embeds into the payload. -/
structure AiEnv where
  cfg : String
  falT2I : Nat → Except Exc ProviderOut
  replicateT2I : Nat → Except Exc ProviderOut
  falI2I : Option String → Nat → Except Exc ProviderOut
  replicateI2I : Option String → Nat → Except Exc ProviderOut
  rehost : String → RehostOutcome

/-- State of the job while `process_ai_job` runs: the stored record, the
exception travelling to the `except` at line 186 (if any), and the total count
of provider-backend calls made so far. -/
structure AiStep (σ : Type) where
  record : JobRec AiResult
  outcome : Except Exc σ
  providerCalls : Nat

/-- `variants = int(payload.get("variants_per_image") or 1)` (line 140): `or`
replaces both a missing key and the value `0` (falsy) by 1; `range(variants)`
iterates `variants` times when positive and not at all otherwise. -/
def variantsIterations (v : Option Int) : Nat :=
  (match v with
   | none => 1
   | some n => if n = 0 then 1 else n).toNat

/-- The inner `for _ in range(variants)` of a batch source (lines 149-157):
each iteration calls `_run_i2i` and `_download_and_upload`, extending
`generated`; the first exception aborts the source.  Returns the accumulated
urls plus the `provider`/`meta` of the LAST iteration (those variables simply
keep their latest assignment; they start as `None` / `{}`). -/
def perSourceGo (env : AiEnv) (src : String) (generated : List String)
    (prov : Option String) (meta : Meta) (calls : Nat) :
    Nat → Except Exc (List String × Option String × Meta) × Nat
  | 0 => (.ok (generated, prov, meta), calls)
  | n + 1 =>
    let r := runI2I env.cfg (env.falI2I (some src)) (env.replicateI2I (some src))
    let calls1 := calls + r.primaryCalls + r.fallbackCalls
    match r.result with
    | .error e => (.error e, calls1)
    | .ok (provider, urls, meta') =>
      let up := downloadAndUpload env.rehost urls
      match up.result with
      | .error e => (.error e, calls1)
      | .ok uploaded => perSourceGo env src (generated ++ uploaded) (some provider) meta' calls1 n

/-- One source of the batch loop (lines 143-164): run the variants, then build
the item; on an exception the item keeps `generated_images = []` and records
the message.  Returns the item, whether it counts toward `success_count`
(`if generated:`), and the provider calls consumed. -/
def batchItemFor (env : AiEnv) (variants : Nat) (src : String) : BatchItem × Bool × Nat :=
  match perSourceGo env src [] none [] 0 variants with
  | (.ok (generated, prov, meta), calls) =>
    (⟨src, generated, prov, meta, none⟩, !generated.isEmpty, calls)
  | (.error e, calls) =>
    (⟨src, [], none, [], some (excMessage e)⟩, false, calls)

/-- The whole `for src_url in image_urls` loop: items in order, the number of
sources with `generated` non-empty (`success_count`), and total provider calls. -/
def batchLoop (env : AiEnv) (variants : Nat) : List String → List BatchItem × Nat × Nat
  | [] => ([], 0, 0)
  | src :: rest =>
    let (item, ok, calls) := batchItemFor env variants src
    let (items, succ, calls') := batchLoop env variants rest
    (item :: items, (if ok then 1 else 0) + succ, calls + calls')

/-- The `try:` body of `process_ai_job` (lines 111-185), starting from record
`rec`.  Its FIRST statement is
`await update_job_status(job_id, RUNNING, stage="running")` (line 113) whose
`stage` keyword cannot bind, so the body raises `TypeError` there; the
remaining branches are translated nonetheless and are reachable only if
`jobs.update_job_status` grows a `stage` parameter. -/
def aiJobTryBody (env : AiEnv) (rec : JobRec AiResult) (job : JobIn) (kind : String) :
    AiStep Unit :=
  match callUpdateJobStatus rec .RUNNING none none ["stage"] with
  | .error e => ⟨rec, .error e, 0⟩
  | .ok rec1 =>
    if kind = "image_t2i" then
      let r := runT2I env.cfg env.falT2I env.replicateT2I
      let calls := r.primaryCalls + r.fallbackCalls
      match r.result with
      | .error e => ⟨rec1, .error e, calls⟩
      | .ok (provider, urls, meta) =>
        match callUpdateJobStatus rec1 .RUNNING none none ["stage"] with
        | .error e => ⟨rec1, .error e, calls⟩
        | .ok rec2 =>
          let up := downloadAndUpload env.rehost urls
          match up.result with
          | .error e => ⟨rec2, .error e, calls⟩
          | .ok uploaded =>
            if uploaded.isEmpty then
              ⟨rec2, .error (.runtimeError "No images uploaded to Cloudinary"), calls⟩
            else
              match callUpdateJobStatus rec2 .DONE
                  (some (.images provider uploaded meta)) none ["stage"] with
              | .error e => ⟨rec2, .error e, calls⟩
              | .ok rec3 => ⟨rec3, .ok (), calls⟩
    else if kind = "image_i2i" then
      let r := runI2I env.cfg (env.falI2I job.payload.imageUrl)
        (env.replicateI2I job.payload.imageUrl)
      let calls := r.primaryCalls + r.fallbackCalls
      match r.result with
      | .error e => ⟨rec1, .error e, calls⟩
      | .ok (provider, urls, meta) =>
        match callUpdateJobStatus rec1 .RUNNING none none ["stage"] with
        | .error e => ⟨rec1, .error e, calls⟩
        | .ok rec2 =>
          let up := downloadAndUpload env.rehost urls
          match up.result with
          | .error e => ⟨rec2, .error e, calls⟩
          | .ok uploaded =>
            if uploaded.isEmpty then
              ⟨rec2, .error (.runtimeError "No images uploaded to Cloudinary"), calls⟩
            else
              match callUpdateJobStatus rec2 .DONE
                  (some (.images provider uploaded meta)) none ["stage"] with
              | .error e => ⟨rec2, .error e, calls⟩
              | .ok rec3 => ⟨rec3, .ok (), calls⟩
    else if kind = "avatar_batch" then
      let imageUrls := job.payload.imageUrls
      let variants := variantsIterations job.payload.variantsPerImage
      let (items, successCount, calls) := batchLoop env variants imageUrls
      if successCount = 0 then
        match callUpdateJobStatus rec1 .ERROR none (some "All batch items failed") ["stage"] with
        | .error e => ⟨rec1, .error e, calls⟩
        | .ok rec2 => ⟨rec2, .ok (), calls⟩
      else
        let total := (items.map (fun it => it.generatedImages.length)).sum
        let summary : BatchSummary := ⟨imageUrls.length, variants, total⟩
        match callUpdateJobStatus rec1 .DONE
            (some (.batch "mixed" items summary)) none ["stage"] with
        | .error e => ⟨rec1, .error e, calls⟩
        | .ok rec2 => ⟨rec2, .ok (), calls⟩
    else
      match callUpdateJobStatus rec1 .ERROR none
          (some ("Unknown AI job kind: " ++ kind)) ["stage"] with
      | .error e => ⟨rec1, .error e, 0⟩
      | .ok rec2 => ⟨rec2, .ok (), 0⟩

/-- `process_ai_job(job_id, job)` on a job whose stored record is `rec`:
run the `try:` body; on an exception the handler (lines 186-188) issues
`await update_job_status(job_id, ERROR, error=str(exc), stage="error")`, whose
own `stage` keyword again raises `TypeError`, which propagates to the caller
(`outcome = .error`); had it bound, the record would end in `ERROR`. -/
def processAiJob (env : AiEnv) (rec : JobRec AiResult) (job : JobIn) : AiStep Unit :=
  let kind := strToLower job.kind
  match aiJobTryBody env rec job kind with
  | ⟨rec1, .ok (), calls⟩ => ⟨rec1, .ok (), calls⟩
  | ⟨rec1, .error exc, calls⟩ =>
    match callUpdateJobStatus rec1 .ERROR none (some (excMessage exc)) ["stage"] with
    | .ok rec2 => ⟨rec2, .ok (), calls⟩
    | .error exc2 => ⟨rec1, .error exc2, calls⟩

/-! ## The video worker loop: `main._worker_loop` (main.py lines 473-492)

`jobs.get_job` and `jobs.update_job_status` are `async def`s, but every call to
them in `main.py` (lines 477, 481, 488, 490, and all of `_process_video_task`)
is made WITHOUT `await`.  In Python such a call only creates a coroutine object
and discards it: the callee's body never runs, so the Redis record is never
read or written.  The loop body is modeled step for step under exactly these
semantics, with a log of the store writes that actually happen. -/

/-- A coroutine object (the value of `job = get_job(job_id)` at line 477) is
truthy, so `if not job: continue` at line 478 is not taken. -/
def coroutineTruthy : Bool := true

/-- `job["payload"]` at line 483 subscripts the coroutine object returned by
the un-awaited `get_job` call and raises `TypeError`. -/
def subscriptCoroutine (key : String) : Except Exc Unit :=
  .error (.typeError ("coroutine object is not subscriptable: " ++ key))

/-- Calling an `async def` without `await`: the coroutine is created and
discarded, its body never runs — the record and the write log are unchanged. -/
def unawaitedAsyncCall {α : Type} (rec : JobRec α) (writes : List (JobRec α)) :
    JobRec α × List (JobRec α) :=
  (rec, writes)

/-- What one iteration of `_worker_loop` leaves behind: the job's stored
record, the store writes performed during the iteration, and any exception
escaping the loop body. -/
structure WorkerIterRun (α : Type) where
  record : JobRec α
  writes : List (JobRec α)
  escaped : Option Exc

/-- One iteration of `main._worker_loop` on a job whose stored record is
`rec`, after `job_id = await job_queue.get()`:
`job = get_job(job_id)` (no await — `job` is a coroutine);
`if not job: continue` (not taken);
`update_job_status(job_id, RUNNING)` (no await — no write);
`job["payload"]` raises `TypeError` before `_process_video_task` is called;
the `except Exception` arm runs `update_job_status(job_id, ERROR, error=str(e))`
(no await — no write) and the loop continues: nothing escapes. -/
def workerLoopIter {α : Type} (rec : JobRec α) : WorkerIterRun α :=
  if coroutineTruthy = false then ⟨rec, [], none⟩
  else
    let (rec1, w1) := unawaitedAsyncCall rec []
    match subscriptCoroutine "payload" with
    | .error _ =>
      let (rec2, w2) := unawaitedAsyncCall rec1 w1
      ⟨rec2, w2, none⟩
    | .ok _ => ⟨rec1, w1, none⟩

/-! ## The batch endpoint: `routers/ai.ai_generate_batch` (routers/ai.py lines 136-180) -/

/-- A raised `HTTPException(status, detail)`. -/
structure HErr where
  status : Nat
  detail : String
deriving DecidableEq, Repr

/-- `ALLOWED_ASPECTS` (routers/ai.py line 20). -/
def allowedAspects : List String := ["1:1", "3:4", "4:3", "9:16", "16:9", "5:8"]

/-- `_validate_steps` (lines 37-42): `None` becomes 30; values outside 10..50
raise a 400. -/
def validateSteps : Option Int → Except HErr Int
  | none => .ok 30
  | some s =>
    if s < 10 ∨ s > 50 then .error ⟨400, "steps must be between 10 and 50"⟩
    else .ok s

/-- `_validate_aspect` (lines 45-49): `(aspect_ratio or "1:1").strip()` must be
a member of the allowed set. -/
def validateAspect (a : Option String) : Except HErr String :=
  let base :=
    match a with
    | none => "1:1"
    | some s => if s.isEmpty then "1:1" else s
  let ar := pyStrip base
  if allowedAspects.contains ar then .ok ar
  else .error ⟨400, "aspect_ratio must be one of the allowed values"⟩

/-- `_validate_strength` (lines 52-57): `None` becomes 0.6; values outside
[0, 1] raise a 400. -/
def validateStrength : Option ℚ → Except HErr ℚ
  | none => .ok (6 / 10)
  | some s =>
    if s < 0 ∨ s > 1 then .error ⟨400, "strength must be between 0 and 1"⟩
    else .ok s

/-- The request body of `POST /ai/generate/batch` (`none` = absent/null). -/
structure BatchRequest where
  prompt : String
  imageUrls : List String
  strength : Option ℚ
  aspect : Option String
  steps : Option Int
  variantsPerImage : Option Int

/-- `cleaned_urls = [u.strip() for u in image_urls if u and u.strip()]`
(line 151): keep the urls that are non-empty and not whitespace-only, each
stripped. -/
def cleanedUrls (urls : List String) : List String :=
  (urls.filter fun u => !u.isEmpty && !(pyStrip u).isEmpty).map pyStrip

/-- `vpi = int(variants_per_image or 1)` (line 154): Python `or` replaces both
`None` and the falsy value `0` by the default 1. -/
def effVpi : Option Int → Int
  | none => 1
  | some v => if v = 0 then 1 else v

/-- What the handler left behind: the HTTP response (job id or raised
`HTTPException`), the record written by `create_job` if it ran, and the queue
after the handler (an id is enqueued only by `rpush_job` at line 179). -/
structure BatchOutcome where
  response : Except HErr String
  createdJob : Option (JobRec AiResult)
  queueAfter : List String
deriving DecidableEq, Repr

/-- `ai_generate_batch` (lines 136-180), in source order:
`_check_rate_limit` (429), blank-prompt check (400), cleaned-url count check
(400), `vpi` range check (400), credits check (402), then the payload
construction runs the strength/aspect/steps validators, and only then
`create_job` + `rpush_job` run.  `rateLimited` abstracts the per-IP sliding
window of `_check_rate_limit`; `canProceed` abstracts
`check_credits(...)["can_proceed"]`. -/
def aiGenerateBatch (rateLimited canProceed : Bool) (jobId : String)
    (q : List String) (req : BatchRequest) : BatchOutcome :=
  if rateLimited then ⟨.error ⟨429, "Rate limit exceeded. Try again later."⟩, none, q⟩
  else if (pyStrip req.prompt).isEmpty then ⟨.error ⟨400, "prompt is required"⟩, none, q⟩
  else
    let cleaned := cleanedUrls req.imageUrls
    if cleaned.length < 15 ∨ cleaned.length > 50 then
      ⟨.error ⟨400, "image_urls must contain 15-50 items"⟩, none, q⟩
    else
      let vpi := effVpi req.variantsPerImage
      if vpi < 1 ∨ vpi > 4 then
        ⟨.error ⟨400, "variants_per_image must be between 1 and 4"⟩, none, q⟩
      else if canProceed = false then
        ⟨.error ⟨402, "Cannot generate avatar batch: insufficient credits"⟩, none, q⟩
      else
        match validateStrength req.strength with
        | .error h => ⟨.error h, none, q⟩
        | .ok _ =>
          match validateAspect req.aspect with
          | .error h => ⟨.error h, none, q⟩
          | .ok _ =>
            match validateSteps req.steps with
            | .error h => ⟨.error h, none, q⟩
            | .ok _ => ⟨.ok jobId, some createJob, rpushJob q jobId⟩

/-- The HTTP status of the raised exception, if the handler raised one. -/
def responseStatus (o : BatchOutcome) : Option Nat :=
  match o.response with
  | .error h => some h.status
  | .ok _ => none

/-! ## Shared lemmas -/

/-- A sequence of `update_job_status` calls acts independently on the three
fields: the final status is the last status written, and result/error are the
last non-null arguments of their kind (or the initial values). -/
theorem applyOps_components {α : Type} (ops : List (UpdateOp α)) (j : JobRec α) :
    applyOps j ops =
      ⟨lastStatusOf j.status ops, lastResultOf j.result ops, lastErrorOf j.error ops⟩ := by
  induction ops generalizing j with
  | nil => rfl
  | cons op rest ih =>
    simpa [applyOps, lastStatusOf, lastResultOf, lastErrorOf]
      using ih (updateJobStatus j op)

/-- `rpush_job` of each id in turn appends the batch at the tail. -/
theorem enqueueAll_eq_append (q ids : List String) : enqueueAll q ids = q ++ ids := by
  induction ids generalizing q with
  | nil => simp [enqueueAll]
  | cons i rest ih =>
    simp [enqueueAll, rpushJob] at ih ⊢
    rw [ih]
    simp

/-- Draining a queue by iterated `brpop_job` yields its reverse (the tail
element first), given at least `q.length` pops. -/
theorem dequeueAllGo_eq_reverse (fuel : Nat) (q : List String) (h : q.length ≤ fuel) :
    dequeueAllGo fuel q = q.reverse := by
  induction fuel generalizing q with
  | zero =>
    have : q = [] := List.length_eq_zero.mp (Nat.le_zero.mp h)
    subst this
    rfl
  | succ fuel ih =>
    cases hq : q.reverse with
    | nil =>
      have : q = [] := by simpa using congrArg List.reverse hq
      subst this
      rfl
    | cons x rest =>
      have hlen : q.length = rest.length + 1 := by
        have := congrArg List.length hq
        simpa using this
      have hrest : rest.reverse.length ≤ fuel := by
        simp only [List.length_reverse]
        omega
      simp only [dequeueAllGo, brpopJob, hq]
      rw [ih rest.reverse hrest, List.reverse_reverse]

/-- `_with_retries(f, 2)` when the first three attempts raise and the first
two are retryable: 3 calls, sleeps of 1 then 2 seconds, and the LAST attempt's
exception is re-raised. -/
theorem withRetries_three_fail {α : Type} (f : Nat → Except Exc α) (e0 e1 e2 : Exc)
    (h0 : f 0 = .error e0) (r0 : isRetryableError e0 = true)
    (h1 : f 1 = .error e1) (r1 : isRetryableError e1 = true)
    (h2 : f 2 = .error e2) :
    withRetries f 2 = ⟨.error e2, 3, [1, 2]⟩ := by
  simp [withRetries, withRetriesGo, h0, r0, h1, r1, h2]

/-- `_with_retries(f, 2)` when the first attempt raises a non-retryable
exception: a single call, no sleeps, the exception is re-raised at once. -/
theorem withRetries_first_nonretryable {α : Type} (f : Nat → Except Exc α) (e : Exc)
    (h0 : f 0 = .error e) (hnr : isRetryableError e = false) :
    withRetries f 2 = ⟨.error e, 1, []⟩ := by
  simp [withRetries, withRetriesGo, h0, hnr]

/-- `_with_retries(f, 2)` when two retryable failures precede a success:
3 calls, sleeps of 1 then 2 seconds, and the third attempt's value returned. -/
theorem withRetries_third_ok {α : Type} (f : Nat → Except Exc α) (e0 e1 : Exc) (v : α)
    (h0 : f 0 = .error e0) (r0 : isRetryableError e0 = true)
    (h1 : f 1 = .error e1) (r1 : isRetryableError e1 = true)
    (h2 : f 2 = .ok v) :
    withRetries f 2 = ⟨.ok v, 3, [1, 2]⟩ := by
  simp [withRetries, withRetriesGo, h0, r0, h1, r1, h2]

/-! ## C1 — store-level invariants -/

/-- C1 counterexample: the claim is false for the store as implemented.  After
`create_job` the very update sequence the video pipeline issues —
`update(RUNNING, result=progress)`, then `update(ERROR, error=...)`, then
another `update(RUNNING)` — leaves a record whose `result` and `error` are BOTH
non-null, whose `result` is non-null under the non-terminal status `RUNNING`,
and whose status changed again after the terminal `ERROR` write:
`update_job_status` has no terminal-state guard and never clears fields. -/
theorem c1_store_invariant_counterexample :
    applyOps (createJob (α := Nat))
      [⟨Status.RUNNING, some 70, none⟩,
       ⟨Status.ERROR, none, some "ffmpeg failed"⟩,
       ⟨Status.RUNNING, none, none⟩]
    = ⟨Status.RUNNING, some 70, some "ffmpeg failed"⟩ := rfl

/-- C1 (amended): `create_job` initializes `status=PENDING` with `result` and
`error` both null, and `update_job_status` is an unguarded field-wise
overwrite: over any update sequence the final status is just the last status
argument (terminal statuses are not frozen), `result` is the last non-null
`result` argument if any, and `error` the last non-null `error` argument if
any — so `result`/`error` mutual exclusion holds only for sequences that never
pass both kinds of argument, and is not enforced by the store. -/
theorem store_update_characterization {α : Type} (ops : List (UpdateOp α)) :
    applyOps (createJob (α := α)) ops =
      ⟨lastStatusOf Status.PENDING ops, lastResultOf none ops, lastErrorOf none ops⟩ :=
  applyOps_components ops createJob

/-! ## C6 — queue order -/

/-- C6 counterexample: enqueue "a" then "b" via `rpush_job` into an empty
queue; successive `brpop_job` calls return "b" first — the reverse of the
enqueue order, because `RPUSH` and `BRPOP` operate on the same (tail) end. -/
theorem c6_fifo_counterexample :
    dequeueAll (enqueueAll [] ["a", "b"]) = ["b", "a"]
    ∧ ["b", "a"] ≠ ["a", "b"] := by
  constructor
  · rfl
  · decide

/-- C6 (amended): the `rpush_job`/`brpop_job` pair forms a stack, not a FIFO
queue: with no interleaved dequeues, successive dequeues return the enqueued
ids in exactly the REVERSE of their enqueue order.  (FIFO would require
`lpush_job` as the enqueue, which no producer uses.) -/
theorem rpush_brpop_is_lifo (ids : List String) :
    dequeueAll (enqueueAll [] ids) = ids.reverse := by
  rw [enqueueAll_eq_append]
  simp only [List.nil_append]
  exact dequeueAllGo_eq_reverse ids.length ids le_rfl

/-! ## C3 / C4 / C7 — retry & fallback policy -/

/-- C3: when the selected primary provider fails all three of its retry-wrapped
attempts with retryable errors and the retry-wrapped attempt against the
secondary provider also fails, `_run_t2i` re-raises the PRIMARY's final error
(`raise exc` at ai_worker.py lines 81-82), not the secondary's — the caller
sees the root cause.  Stated for every `settings.AI_PROVIDER` configuration
`cfg` and any backend behaviors. -/
theorem run_t2i_surfaces_primary_error {α : Type} (cfg : String)
    (fal replicate : Nat → Except Exc α) (e0 e1 e2 eF : Exc)
    (h0 : primaryOf cfg fal replicate 0 = .error e0) (r0 : isRetryableError e0 = true)
    (h1 : primaryOf cfg fal replicate 1 = .error e1) (r1 : isRetryableError e1 = true)
    (h2 : primaryOf cfg fal replicate 2 = .error e2) (r2 : isRetryableError e2 = true)
    (hf : (withRetries (fallbackOf cfg fal replicate) 2).result = .error eF) :
    (runT2I cfg fal replicate).result = .error e2 := by
  have hp := withRetries_three_fail (primaryOf cfg fal replicate) e0 e1 e2 h0 r0 h1 r1 h2
  simp [runT2I, runWithFallback, hp, r2, hf]

/-- Witness for C3: with fal as primary, three retryable fal failures and a
failing replicate run, the surfaced error is fal's third-attempt error. -/
theorem run_t2i_surfaces_primary_error_witness :
    primaryOf "fal"
        (fun n => if n = 0 then (Except.error (Exc.provider true "fal 503 a") : Except Exc Unit)
                  else if n = 1 then .error (.provider true "fal 503 b")
                  else .error (.provider true "fal 503 c"))
        (fun _ => .error (.provider true "replicate 502")) 2
      = .error (.provider true "fal 503 c")
    ∧ (runT2I "fal"
        (fun n => if n = 0 then (Except.error (Exc.provider true "fal 503 a") : Except Exc Unit)
                  else if n = 1 then .error (.provider true "fal 503 b")
                  else .error (.provider true "fal 503 c"))
        (fun _ => .error (.provider true "replicate 502"))).result
      = .error (.provider true "fal 503 c") :=
  ⟨by decide,
   run_t2i_surfaces_primary_error "fal" _ _
     (.provider true "fal 503 a") (.provider true "fal 503 b")
     (.provider true "fal 503 c") (.provider true "replicate 502")
     (by decide) (by decide) (by decide) (by decide) (by decide) (by decide) (by decide)⟩

/-- C4: when the selected primary provider's first attempt raises a
non-retryable error, `_with_retries` breaks at once (one call, no sleep) and
`_run_t2i` re-raises it without ever invoking the secondary provider. -/
theorem run_t2i_nonretryable_aborts {α : Type} (cfg : String)
    (fal replicate : Nat → Except Exc α) (e : Exc)
    (h0 : primaryOf cfg fal replicate 0 = .error e)
    (hnr : isRetryableError e = false) :
    (runT2I cfg fal replicate).result = .error e
    ∧ (runT2I cfg fal replicate).primaryCalls = 1
    ∧ (runT2I cfg fal replicate).fallbackCalls = 0 := by
  have hp := withRetries_first_nonretryable (primaryOf cfg fal replicate) e h0 hnr
  simp [runT2I, runWithFallback, hp, hnr]

/-- Witness for C4: with fal as primary and a 4xx (non-retryable) failure, the
error surfaces at once, fal is called exactly once and replicate zero times. -/
theorem run_t2i_nonretryable_aborts_witness :
    primaryOf "fal"
        (fun _ => (Except.error (Exc.provider false "Provider 4xx: 422") : Except Exc Unit))
        (fun _ => .ok ()) 0
      = .error (.provider false "Provider 4xx: 422")
    ∧ (runT2I "fal"
        (fun _ => (Except.error (Exc.provider false "Provider 4xx: 422") : Except Exc Unit))
        (fun _ => .ok ())).result
      = .error (.provider false "Provider 4xx: 422")
    ∧ (runT2I "fal"
        (fun _ => (Except.error (Exc.provider false "Provider 4xx: 422") : Except Exc Unit))
        (fun _ => .ok ())).primaryCalls = 1
    ∧ (runT2I "fal"
        (fun _ => (Except.error (Exc.provider false "Provider 4xx: 422") : Except Exc Unit))
        (fun _ => .ok ())).fallbackCalls = 0 :=
  ⟨by decide,
   (run_t2i_nonretryable_aborts "fal" _ _ (.provider false "Provider 4xx: 422")
     (by decide) (by decide)).1,
   (run_t2i_nonretryable_aborts "fal" _ _ (.provider false "Provider 4xx: 422")
     (by decide) (by decide)).2.1,
   (run_t2i_nonretryable_aborts "fal" _ _ (.provider false "Provider 4xx: 422")
     (by decide) (by decide)).2.2⟩

/-! ## C2 / C8 — the video worker loop never touches the record -/

/-- C2: (code-bug evidence) one iteration of `main._worker_loop` leaves EVERY
job record exactly as it was, writes nothing to the store, and lets no
exception escape.  The loop does catch all exceptions, but because
`update_job_status` is an `async def` called without `await` (main.py lines
481/490) its body never runs, so a job whose pipeline raises never ends with
`status=ERROR` and an error message — the record just keeps its prior state
(`PENDING`) forever. -/
theorem worker_loop_leaves_record_unchanged {α : Type} (rec : JobRec α) :
    workerLoopIter rec = ⟨rec, [], none⟩ := rfl

/-- C8: (code-bug evidence) for a freshly created `video_filter` job, the
worker-loop iteration performs NO store writes at all — in particular no
progress value is ever written — and the record keeps `status=PENDING`, never
reaching `DONE`: every `update_job_status` call in `_worker_loop` and
`_process_video_task` lacks `await`, and the loop even raises `TypeError` on
`job["payload"]` (the un-awaited `get_job` returns a coroutine) before the
pipeline is dispatched. -/
theorem video_progress_never_written :
    (workerLoopIter (createJob (α := Unit))).writes = []
    ∧ (workerLoopIter (createJob (α := Unit))).record.status = Status.PENDING
    ∧ (workerLoopIter (createJob (α := Unit))).record.status ≠ Status.DONE :=
  ⟨rfl, rfl, by decide⟩

/-! ## C5 / C7 — `process_ai_job` crashes on its first status write -/

/-- C5: (code-bug evidence) an `avatar_batch` job over 15 source urls — with
backends that would fail every generation — does NOT end
`ERROR, "All batch items failed"`: `process_ai_job`'s first statement
`await update_job_status(job_id, RUNNING, stage="running")` raises `TypeError`
(`jobs.update_job_status` has no `stage` parameter), the `except` handler's own
`stage="error"` write raises the same `TypeError`, which propagates, and the
record is left untouched in `PENDING` with zero provider calls made. -/
theorem process_ai_job_batch_crashes :
    processAiJob
      ⟨"fal",
       (fun _ => .error (.provider true "Provider 5xx: 503")),
       (fun _ => .error (.provider true "Provider 5xx: 503")),
       (fun _ _ => .error (.provider false "Provider 4xx: 422")),
       (fun _ _ => .error (.provider false "Provider 4xx: 422")),
       (fun _ => .noSecureUrl)⟩
      createJob
      ⟨"avatar_batch",
       ⟨none,
        ["u01", "u02", "u03", "u04", "u05", "u06", "u07", "u08",
         "u09", "u10", "u11", "u12", "u13", "u14", "u15"],
        some 1⟩⟩
    = ⟨createJob, .error (.typeError unexpectedKwMsg), 0⟩
    ∧ (createJob (α := AiResult)).status = Status.PENDING
    ∧ (createJob (α := AiResult)).error ≠ some "All batch items failed" :=
  ⟨rfl, rfl, by decide⟩

/-- C7: (code-bug evidence) an `image_t2i` job whose primary backend would fail
twice with retryable errors and succeed on the third attempt never gets that
far: `process_ai_job` raises `TypeError` on its first `stage=`-carrying status
write, so the primary provider is called 0 times (not 3), no fallback happens,
and no `result.provider` is ever recorded — the record stays `PENDING` with
`result = None`. -/
theorem process_ai_job_t2i_never_calls_provider :
    processAiJob
      ⟨"fal",
       (fun n => if n < 2 then .error (.provider true "Provider 5xx: 503")
                 else .ok (["https://img.fal/out.png"], [])),
       (fun _ => .error (.provider true "Provider 5xx: 503")),
       (fun _ _ => .error (.provider false "Provider 4xx: 422")),
       (fun _ _ => .error (.provider false "Provider 4xx: 422")),
       (fun _ => .uploaded "https://cdn/out.jpg")⟩
      createJob
      ⟨"image_t2i", ⟨none, [], none⟩⟩
    = ⟨createJob, .error (.typeError unexpectedKwMsg), 0⟩
    ∧ (createJob (α := AiResult)).result = none :=
  ⟨rfl, rfl⟩

/-! ## C9 — re-hosting failures -/

/-- C9 counterexample: the claim is false for `_download_and_upload`.  When
re-hosting the FIRST of two generated urls raises (here a download failure),
the exception propagates out of the function: the second url is never
re-hosted (`attempted = 1` of 2) and no result list is produced, instead of
the failing item being dropped and the rest still re-hosted. -/
theorem rehost_failure_counterexample :
    (downloadAndUpload
      (fun u => if u = "https://gen/1.png"
                then .raises (.runtimeError "Download failed (404) https://gen/1.png")
                else .uploaded "https://cdn/2.jpg")
      ["https://gen/1.png", "https://gen/2.png"]).result
      = .error (.runtimeError "Download failed (404) https://gen/1.png")
    ∧ (downloadAndUpload
      (fun u => if u = "https://gen/1.png"
                then .raises (.runtimeError "Download failed (404) https://gen/1.png")
                else .uploaded "https://cdn/2.jpg")
      ["https://gen/1.png", "https://gen/2.png"]).attempted = 1 := by
  constructor
  · rfl
  · rfl

/-- C9 (amended): a media item is dropped-but-not-fatal only when its upload
RETURNS without a `secure_url` in the response: if no item's download or
upload raises, `_download_and_upload` processes every url and returns exactly
the urls whose upload response carried a `secure_url`, in order.  An exception
while re-hosting any item instead propagates and aborts the remaining items
(failing the whole job); the t2i/i2i pipelines then fail with "No images
uploaded to Cloudinary" when all items were dropped. -/
theorem rehost_drops_only_missing_secure_url (rehost : String → RehostOutcome)
    (urls : List String) (h : ∀ u ∈ urls, notRaises (rehost u) = true) :
    (downloadAndUpload rehost urls).result = .ok (keptUrls rehost urls)
    ∧ (downloadAndUpload rehost urls).attempted = urls.length := by
  induction urls with
  | nil => exact ⟨rfl, rfl⟩
  | cons u rest ih =>
    have hu : notRaises (rehost u) = true := h u (List.mem_cons_self u rest)
    have hrest : ∀ v ∈ rest, notRaises (rehost v) = true :=
      fun v hv => h v (List.mem_cons_of_mem u hv)
    obtain ⟨ih1, ih2⟩ := ih hrest
    cases hru : rehost u with
    | raises e =>
      rw [hru] at hu
      exact absurd hu (by simp [notRaises])
    | uploaded s =>
      constructor
      · simp [downloadAndUpload, keptUrls, hru, ih1, Except.map]
      · simp [downloadAndUpload, hru, ih2]
    | noSecureUrl =>
      constructor
      · simp [downloadAndUpload, keptUrls, hru, ih1]
      · simp [downloadAndUpload, hru, ih2]

/-- Witness for the amended C9: two urls, the first uploads fine, the second's
upload response has no `secure_url`; both are processed and exactly the first
is kept. -/
theorem rehost_drops_only_missing_secure_url_witness :
    (∀ u ∈ ["https://gen/1.png", "https://gen/2.png"],
      notRaises ((fun v => if v = "https://gen/1.png"
                           then RehostOutcome.uploaded "https://cdn/1.jpg"
                           else RehostOutcome.noSecureUrl) u) = true)
    ∧ (downloadAndUpload
        (fun v => if v = "https://gen/1.png"
                  then RehostOutcome.uploaded "https://cdn/1.jpg"
                  else RehostOutcome.noSecureUrl)
        ["https://gen/1.png", "https://gen/2.png"]).result
      = .ok (keptUrls
        (fun v => if v = "https://gen/1.png"
                  then RehostOutcome.uploaded "https://cdn/1.jpg"
                  else RehostOutcome.noSecureUrl)
        ["https://gen/1.png", "https://gen/2.png"]) :=
  ⟨by decide,
   (rehost_drops_only_missing_secure_url _ _ (by decide)).1⟩

/-! ## C10 — batch request validation -/

/-- C10 counterexample: the claim is false at `variants_per_image = 0`.  With a
valid prompt and 15 clean source urls, `vpi = int(variants_per_image or 1)`
silently turns the out-of-range value 0 into the default 1, so instead of a
400 rejection the request is ACCEPTED: a job record is created and its id is
enqueued. -/
theorem batch_validation_counterexample :
    aiGenerateBatch false true "job-1" []
      ⟨"portrait of a cat",
       ["u01", "u02", "u03", "u04", "u05", "u06", "u07", "u08",
        "u09", "u10", "u11", "u12", "u13", "u14", "u15"],
       none, none, none, some 0⟩
    = ⟨.ok "job-1", some createJob, ["job-1"]⟩ := by
  rfl

/-- C10 (amended): provided the per-IP rate limit does not trigger first (that
rejects with 429 before any validation), a batch request whose cleaned url
list has fewer than 15 or more than 50 entries, or whose `variants_per_image`
is a value outside 1..4 OTHER THAN 0 (0 is silently replaced by the default
1 and accepted), is rejected with HTTP 400, no job record is created, and
nothing is enqueued. -/
theorem batch_validation_rejects (canProceed : Bool) (jobId : String)
    (q : List String) (req : BatchRequest)
    (h : (cleanedUrls req.imageUrls).length < 15
       ∨ 50 < (cleanedUrls req.imageUrls).length
       ∨ (∃ v, req.variantsPerImage = some v ∧ v ≠ 0 ∧ (v < 1 ∨ 4 < v))) :
    responseStatus (aiGenerateBatch false canProceed jobId q req) = some 400
    ∧ (aiGenerateBatch false canProceed jobId q req).createdJob = none
    ∧ (aiGenerateBatch false canProceed jobId q req).queueAfter = q := by
  by_cases hp : (pyStrip req.prompt).isEmpty
  · simp [aiGenerateBatch, responseStatus, hp]
  · by_cases hlen : (cleanedUrls req.imageUrls).length < 15
        ∨ (cleanedUrls req.imageUrls).length > 50
    · simp [aiGenerateBatch, responseStatus, hp, hlen]
    · have hv : ∃ v, req.variantsPerImage = some v ∧ v ≠ 0 ∧ (v < 1 ∨ 4 < v) := by
        push_neg at hlen
        rcases h with h | h | h
        · exact absurd h (by omega)
        · exact absurd h (by omega)
        · exact h
      obtain ⟨v, hv1, hv2, hv3⟩ := hv
      have hev : effVpi req.variantsPerImage = v := by
        rw [hv1]
        simp [effVpi, hv2]
      have hcond : effVpi req.variantsPerImage < 1 ∨ effVpi req.variantsPerImage > 4 := by
        rw [hev]
        exact hv3
      simp only [aiGenerateBatch, responseStatus]
      rw [if_neg (by simp)]
      rw [if_neg hp]
      rw [if_neg hlen]
      rw [if_pos hcond]
      exact ⟨rfl, rfl, rfl⟩

/-- Witness for the amended C10: a request with only 14 source urls is
rejected with 400, creating and enqueuing nothing. -/
theorem batch_validation_rejects_witness :
    (cleanedUrls ["u01", "u02", "u03", "u04", "u05", "u06", "u07",
        "u08", "u09", "u10", "u11", "u12", "u13", "u14"]).length < 15
    ∧ responseStatus (aiGenerateBatch false true "job-2" ["old-job"]
        ⟨"portrait of a cat",
         ["u01", "u02", "u03", "u04", "u05", "u06", "u07",
          "u08", "u09", "u10", "u11", "u12", "u13", "u14"],
         none, none, none, some 1⟩) = some 400
    ∧ (aiGenerateBatch false true "job-2" ["old-job"]
        ⟨"portrait of a cat",
         ["u01", "u02", "u03", "u04", "u05", "u06", "u07",
          "u08", "u09", "u10", "u11", "u12", "u13", "u14"],
         none, none, none, some 1⟩).queueAfter = ["old-job"] :=
  ⟨by decide,
   (batch_validation_rejects true "job-2" ["old-job"] _ (Or.inl (by decide))).1,
   (batch_validation_rejects true "job-2" ["old-job"] _ (Or.inl (by decide))).2.2⟩

end IgPlanner
